import Mathlib

/-!
Shallow embedding of the `trusty` backend's transaction verification and
trust-scoring pipeline, translated from `src/core/services.py`,
`src/core/views.py`, `src/core/serializers.py` and `src/core/models.py`.

Conventions of the embedding:
* Python `Decimal` amounts (max_digits=10, decimal_places=2) are modelled as
  `Rat`.  For these inputs the `Decimal` context precision (28 significant
  digits) never changes the outcome of the single comparison the code makes
  (`abs(percentDiff) <= 15`), because the exact rational value of
  `percentDiff` is `100*(p-q)/q` with `p, q < 10^10`, so it is either equal
  to 15 or at distance at least `10^-10` from it, far beyond the rounding
  error of the 28-digit context.
* Django model rows are records; a "save" is modelled by returning the
  updated record, and the orchestrator accumulates the persisted statuses
  and wallet calls in an explicit outcome record.
* Python `None`-able fields are `Option`s; the truthiness test
  `if transaction.market_average_price:` is false both for `None` and for
  the value `0`, and is translated accordingly.
* Python's builtin `hash` on strings is randomized per process
  (PYTHONHASHSEED); it enters the model as an explicit function parameter
  `pyhash`, standing for `lambda f, t, a: hash(f"{f}{t}{a}")` under the
  process's seed.  Its results range over the signed 64-bit interval.
-/

namespace Trusty

/-- Transaction.STATUS_CHOICES from src/core/models.py. -/
inductive TxStatus where
  | PENDING
  | VERIFYING
  | APPROVED
  | EXECUTED
  | REJECTED
deriving DecidableEq, Repr

/-- The fields of core.models.AgentInstance that the verification pipeline
reads or writes (src/core/models.py lines 14-33).  `userId` stands for the
owning `user` foreign key. -/
structure AgentInstance where
  userId : Nat
  trust_score : Int
  max_budget : Rat
  allowed_merchants : List String
  bridge_wallet_address : String
deriving DecidableEq, Repr

/-- The fields of core.models.Transaction that the verification pipeline
reads or writes (src/core/models.py lines 41-64).  `executed_at` is a
nullable timestamp, modelled as `Option Nat`. -/
structure Transaction where
  amount : Rat
  merchant : String
  merchant_wallet : String
  status : TxStatus
  market_average_price : Option Rat
  transaction_hash : String
  executed_at : Option Nat
deriving DecidableEq, Repr

/-- An in-memory transaction whose `amount` may be missing (`None`), as a
malformed input to the verifier.  Comparing a missing amount against the
budget raises a `TypeError` in Python. -/
structure RawTransaction where
  amount : Option Rat
  merchant : String
  merchant_wallet : String
  status : TxStatus
  market_average_price : Option Rat
deriving DecidableEq, Repr

/-- Forgets the execution-only fields and marks every field present. -/
def Transaction.toRaw (t : Transaction) : RawTransaction :=
  { amount := some t.amount
    merchant := t.merchant
    merchant_wallet := t.merchant_wallet
    status := t.status
    market_average_price := t.market_average_price }

/-- Python's builtin `abs` on an exact rational value. -/
def ratAbs (q : Rat) : Rat := if q < 0 then -q else q

/-- ShoppingService._verify_price_reasonable (src/core/services.py lines
73-81): if `transaction.market_average_price` is truthy (present and
nonzero), the check is `abs((amount - market) / market * 100) <= 15`;
otherwise it passes. -/
def verify_price_reasonable (amount : Rat) (market_average_price : Option Rat) : Bool :=
  match market_average_price with
  | some m => if m = 0 then true else decide (ratAbs ((amount - m) / m * 100) ≤ 15)
  | none => true

/-- The `checks` dict built by ShoppingService.verify_transaction
(src/core/services.py lines 47-51), in insertion order. -/
structure VerificationChecks where
  budget_check : Bool
  merchant_check : Bool
  price_check : Bool
deriving DecidableEq, Repr

/-- The dict returned by ShoppingService.verify_transaction
(src/core/services.py lines 61-64 and 68-71). -/
structure VerificationResult where
  approved : Bool
  reason : Option String
deriving DecidableEq, Repr

/-- Python `repr` of a list of strings, as interpolated by the f-string
`f"Failed checks: {[k for k,v in checks.items() if not v]}"`. -/
def pyListRepr (xs : List String) : String :=
  "[" ++ String.intercalate ", " (xs.map (fun s => "\x27" ++ s ++ "\x27")) ++ "]"

/-- The list comprehension `[k for k,v in checks.items() if not v]`
(src/core/services.py line 59): the keys of the failing checks in dict
insertion order. -/
def failedCheckNames (c : VerificationChecks) : List String :=
  (if c.budget_check then [] else ["budget_check"]) ++
  (if c.merchant_check then [] else ["merchant_check"]) ++
  (if c.price_check then [] else ["price_check"])

/-- The body of the `try:` block of ShoppingService.verify_transaction
(src/core/services.py lines 43-64) on a transaction whose `amount` may be
missing.  Building the `checks` dict evaluates the budget comparison first;
with `amount = None` Python raises `TypeError` there, before any field of
the transaction is written, which the embedding returns as `Except.error`
with `str(e)` (the message text is abstracted).  On the normal path it
returns the result dict together with the saved transaction. -/
def verify_transaction_body (agent : AgentInstance) (t : RawTransaction) :
    Except String (VerificationResult × RawTransaction) :=
  match t.amount with
  | none => Except.error "unsupported comparison between NoneType and Decimal"
  | some a =>
    let checks : VerificationChecks :=
      { budget_check := decide (a ≤ agent.max_budget)
        merchant_check := decide (t.merchant ∈ agent.allowed_merchants)
        price_check := verify_price_reasonable a t.market_average_price }
    let approved := checks.budget_check && checks.merchant_check && checks.price_check
    let t2 := { t with status := if approved then TxStatus.APPROVED else TxStatus.REJECTED }
    let reason : Option String :=
      if approved then none
      else some ("Failed checks: " ++ pyListRepr (failedCheckNames checks))
    Except.ok ({ approved := approved, reason := reason }, t2)

/-- ShoppingService.verify_transaction (src/core/services.py lines 38-71):
the `try:` body with its `except Exception` handler, which turns any raised
exception into `{'approved': False, 'reason': f"Verification error: {e}"}`
and leaves the transaction row unwritten. -/
def verify_transaction_raw (agent : AgentInstance) (t : RawTransaction) :
    VerificationResult × RawTransaction :=
  match verify_transaction_body agent t with
  | Except.ok r => r
  | Except.error e => ({ approved := false, reason := some ("Verification error: " ++ e) }, t)

/-- ShoppingService.verify_transaction on a well-formed transaction row (all
fields present), returning the result dict and the saved row. -/
def verify_transaction (agent : AgentInstance) (t : Transaction) :
    VerificationResult × Transaction :=
  let checks : VerificationChecks :=
    { budget_check := decide (t.amount ≤ agent.max_budget)
      merchant_check := decide (t.merchant ∈ agent.allowed_merchants)
      price_check := verify_price_reasonable t.amount t.market_average_price }
  let approved := checks.budget_check && checks.merchant_check && checks.price_check
  let t2 := { t with status := if approved then TxStatus.APPROVED else TxStatus.REJECTED }
  let reason : Option String :=
    if approved then none
    else some ("Failed checks: " ++ pyListRepr (failedCheckNames checks))
  ({ approved := approved, reason := reason }, t2)

/-- The `checks` dict of `verify_transaction` by itself, for stating which
individual checks passed. -/
def runChecks (agent : AgentInstance) (t : Transaction) : VerificationChecks :=
  { budget_check := decide (t.amount ≤ agent.max_budget)
    merchant_check := decide (t.merchant ∈ agent.allowed_merchants)
    price_check := verify_price_reasonable t.amount t.market_average_price }

/-- The `score_impacts` dict of TrustScoreService.update_score
(src/core/services.py lines 110-115), as a partial lookup. -/
def score_impacts (event_type : String) : Option Int :=
  if event_type = "SUCCESSFUL_TRANSACTION" then some 5
  else if event_type = "FAILED_TRANSACTION" then some (-10)
  else if event_type = "PRICE_SAVING" then some 2
  else if event_type = "SUSPICIOUS_ACTIVITY" then some (-15)
  else none

/-- TrustScoreService.update_score (src/core/services.py lines 106-128):
the new value written to `agent.trust_score`.  An event type outside the
dict leaves the score unchanged (the `if event_type in score_impacts:`
guard). -/
def update_score (trust_score : Int) (event_type : String) : Int :=
  match score_impacts event_type with
  | some impact => max 0 (min 100 (trust_score + impact))
  | none => trust_score

/-- Repeated application of `update_score` over a sequence of events. -/
def applyEvents (trust_score : Int) (events : List String) : Int :=
  events.foldl update_score trust_score

/-- Lowercase hexadecimal digit characters, as produced by Python's `x`
format code. -/
def hexDigitChar : Nat → Char
  | 0 => '0' | 1 => '1' | 2 => '2' | 3 => '3' | 4 => '4' | 5 => '5' | 6 => '6' | 7 => '7'
  | 8 => '8' | 9 => '9' | 10 => 'a' | 11 => 'b' | 12 => 'c' | 13 => 'd' | 14 => 'e'
  | _ => 'f'

/-- Whether a character is one of the lowercase hexadecimal digits `0-9a-f`. -/
def isHexDigitChar (c : Char) : Bool :=
  ('0' ≤ c && c ≤ '9') || ('a' ≤ c && c ≤ 'f')

/-- Hexadecimal digits of `n`, least significant first, by fuelled division
(the fuel `n+1` always suffices since the digit count of `n` is at most
`n+1`). -/
def natHexDigitsAux : Nat → Nat → List Char
  | 0, _ => []
  | fuel + 1, n =>
    if n < 16 then [hexDigitChar n]
    else hexDigitChar (n % 16) :: natHexDigitsAux fuel (n / 16)

/-- Minimal lowercase hexadecimal rendering of a natural number, most
significant digit first (Python `f"{n:x}"` for `n >= 0`). -/
def natToHex (n : Nat) : List Char :=
  (natHexDigitsAux (n + 1) n).reverse

/-- Zero-pads a digit string on the left to the given width, leaving longer
strings unchanged (the `0` fill of Python's format mini-language). -/
def leftPadZeros (width : Nat) (s : List Char) : List Char :=
  List.replicate (width - s.length) '0' ++ s

/-- Python `f"{n:0{width}x}"` for an `int` of either sign: the minimal
hexadecimal digits, zero-padded to `width`; a negative number gets a `'-'`
sign first, with the zeros inserted between the sign and the digits so that
the total width counts the sign. -/
def pyHexFmt (width : Nat) (n : Int) : List Char :=
  if n < 0 then '-' :: leftPadZeros (width - 1) (natToHex (-n).toNat)
  else leftPadZeros width (natToHex n.toNat)

/-- MockBridgeWalletService.create_wallet (src/core/services.py lines
88-92): `f"0x{user.id:040x}"`. -/
def create_wallet (userId : Nat) : String :=
  String.mk ('0' :: 'x' :: pyHexFmt 40 (Int.ofNat userId))

/-- MockBridgeWalletService.execute_transfer (src/core/services.py lines
94-100): `f"0x{hash(f'{from_wallet}{to_wallet}{amount}'):064x}"`.  The
builtin `hash` of the concatenated f-string is the parameter `pyhash` (its
value depends on the per-process hash seed, cf. the header comment). -/
def execute_transfer (pyhash : String → String → Rat → Int)
    (from_wallet to_wallet : String) (amount : Rat) : String :=
  String.mk ('0' :: 'x' :: pyHexFmt 64 (pyhash from_wallet to_wallet amount))

/-- The fields of the POST /transactions/verify request body that
TransactionSerializer accepts (src/core/serializers.py lines 65-104).
`market_average_price` may be supplied by the client, but it is listed in
the serializer's `read_only_fields`, so it never reaches the created row. -/
structure VerifyRequestBody where
  amount : Rat
  merchant : String
  merchant_wallet : String
  market_average_price : Option Rat
deriving DecidableEq, Repr

/-- TransactionSerializer.validate (src/core/serializers.py lines 90-104):
raises ValidationError when the amount exceeds the agent's budget or the
merchant is not allowed, in that order. -/
def TransactionSerializer_validate (agent : AgentInstance) (body : VerifyRequestBody) :
    Except String Unit :=
  if agent.max_budget < body.amount then
    Except.error "Transaction amount exceeds agent\x27s maximum budget"
  else if body.merchant ∈ agent.allowed_merchants then Except.ok ()
  else Except.error "Merchant not in allowed merchants list"

/-- The wire-level outcomes of TransactionVerificationView.post: the 200
body `{'status': 'EXECUTED', 'transaction_hash': ...}`, the 400 body
`{'status': 'REJECTED', 'reason': ...}`, and the 500 body
`{'error': ..., 'detail': ...}` built by the `except Exception` handler. -/
inductive ResponseBody where
  | executed (transaction_hash : String)
  | rejected (reason : Option String)
  | error (err detail : String)
deriving DecidableEq, Repr

/-- An HTTP response: status code plus the JSON body. -/
structure HttpResponse where
  statusCode : Nat
  body : ResponseBody
deriving DecidableEq, Repr

/-- Whether a response body is the policy-rejection body. -/
def ResponseBody.isRejected : ResponseBody → Bool
  | ResponseBody.rejected _ => true
  | _ => false

/-- Everything observable about one POST /transactions/verify request:
the response, the final transaction row (if one was created), the sequence
of statuses persisted for that row, the calls made to
MockBridgeWalletService.execute_transfer, and the final agent row. -/
structure PostOutcome where
  response : HttpResponse
  transactionRow : Option Transaction
  statusHistory : List TxStatus
  walletCalls : List (String × String × Rat)
  agent : AgentInstance
deriving DecidableEq, Repr

/-- The part of TransactionVerificationView.post after the transaction row
has been created (src/core/views.py lines 197-231): verify, then either
execute the transfer, mark the row EXECUTED with the returned hash and
apply the SUCCESSFUL_TRANSACTION trust event, or mark the row REJECTED and
answer 400 with the failure reason.  Nothing in this code writes
`executed_at`, so the row keeps the value it was created with. -/
def post_afterSave (pyhash : String → String → Rat → Int)
    (agent : AgentInstance) (t0 : Transaction) : PostOutcome :=
  let vres := verify_transaction agent t0
  let t1 := vres.2
  if vres.1.approved then
    let tx_hash := execute_transfer pyhash agent.bridge_wallet_address t0.merchant_wallet t0.amount
    let t2 := { t1 with status := TxStatus.EXECUTED, transaction_hash := tx_hash }
    let agent2 := { agent with
      trust_score := update_score agent.trust_score "SUCCESSFUL_TRANSACTION" }
    { response := { statusCode := 200, body := ResponseBody.executed tx_hash }
      transactionRow := some t2
      statusHistory := [t0.status, t1.status, t2.status]
      walletCalls := [(agent.bridge_wallet_address, t0.merchant_wallet, t0.amount)]
      agent := agent2 }
  else
    let t2 := { t1 with status := TxStatus.REJECTED }
    { response := { statusCode := 400, body := ResponseBody.rejected vres.1.reason }
      transactionRow := some t2
      statusHistory := [t0.status, t1.status, t2.status]
      walletCalls := []
      agent := agent }

/-- TransactionVerificationView.post (src/core/views.py lines 179-238).
`requestUserId` is the authenticated requester; `agent` is the row the
serializer resolved from `body.agent_instance`.  Serializer validation and
the ownership check both raise, and both raises are caught by the
`except Exception` handler, which answers 500 with
`{'error': 'Verification failed', 'detail': str(e)}`.  On the main path
the row is created by `serializer.save(status='VERIFYING')`: the status is
passed directly to the ORM `create`, so the first persisted status is
VERIFYING (the model default PENDING is overridden before any save), and
the read-only fields (`market_average_price`, `transaction_hash`,
`executed_at`) take their model defaults. -/
def TransactionVerificationView_post (pyhash : String → String → Rat → Int)
    (requestUserId : Nat) (agent : AgentInstance) (body : VerifyRequestBody) : PostOutcome :=
  match TransactionSerializer_validate agent body with
  | Except.error msg =>
    { response := { statusCode := 500, body := ResponseBody.error "Verification failed" msg }
      transactionRow := none
      statusHistory := []
      walletCalls := []
      agent := agent }
  | Except.ok _ =>
    if agent.userId = requestUserId then
      let t0 : Transaction :=
        { amount := body.amount
          merchant := body.merchant
          merchant_wallet := body.merchant_wallet
          status := TxStatus.VERIFYING
          market_average_price := none
          transaction_hash := ""
          executed_at := none }
      post_afterSave pyhash agent t0
    else
      { response :=
          { statusCode := 500
            body := ResponseBody.error "Verification failed" "Not authorized for this agent" }
        transactionRow := none
        statusHistory := []
        walletCalls := []
        agent := agent }

/-- The progression of the claimed status order
PENDING → VERIFYING → APPROVED/REJECTED → EXECUTED. -/
def statusRank : TxStatus → Nat
  | TxStatus.PENDING => 0
  | TxStatus.VERIFYING => 1
  | TxStatus.APPROVED => 2
  | TxStatus.REJECTED => 2
  | TxStatus.EXECUTED => 3

/-- Whether a sequence of persisted statuses only ever advances (never
regresses) along `statusRank`. -/
def statusesAdvance : List TxStatus → Bool
  | [] => true
  | [_] => true
  | a :: b :: rest => decide (statusRank a ≤ statusRank b) && statusesAdvance (b :: rest)

/-- The agent of the end-to-end scenarios in section 8 of the spec:
max_budget 1000.00, merchants Amazon and BestBuy, trust score 50. -/
def agentA : AgentInstance :=
  { userId := 1
    trust_score := 50
    max_budget := 1000
    allowed_merchants := ["Amazon", "BestBuy"]
    bridge_wallet_address := "0x1234567890abcdef1234567890abcdef12345678" }

/-- The request body of scenario A: amount 150.00 at Amazon, with
market_average_price 180.00 supplied in the body. -/
def bodyA : VerifyRequestBody :=
  { amount := 150
    merchant := "Amazon"
    merchant_wallet := "0x9876543210abcdef1234567890abcdef12345678"
    market_average_price := some 180 }

/-- A transaction row at the not-allowed merchant Walmart (scenario B),
as it would exist after creation by the ORM. -/
def tW : Transaction :=
  { amount := 150
    merchant := "Walmart"
    merchant_wallet := "0x9876543210abcdef1234567890abcdef12345678"
    status := TxStatus.VERIFYING
    market_average_price := none
    transaction_hash := ""
    executed_at := none }

/-- A well-formed transaction row that every check approves. -/
def tOk : Transaction :=
  { amount := 150
    merchant := "Amazon"
    merchant_wallet := "0x9876543210abcdef1234567890abcdef12345678"
    status := TxStatus.VERIFYING
    market_average_price := none
    transaction_hash := ""
    executed_at := none }

/-- A malformed in-memory transaction: the required `amount` field is
missing (`None`). -/
def tMissing : RawTransaction :=
  { amount := none
    merchant := "Amazon"
    merchant_wallet := "0x9876543210abcdef1234567890abcdef12345678"
    status := TxStatus.VERIFYING
    market_average_price := none }

/-! ## Helper lemmas -/

/-- The model of Python `abs` agrees with the mathematical absolute value. -/
theorem ratAbs_eq_abs (q : Rat) : ratAbs q = |q| := by
  unfold ratAbs
  rcases lt_or_ge q 0 with h | h
  · simp [h, abs_of_neg h]
  · simp [not_lt.mpr h, abs_of_nonneg h]

/-- The price check succeeds exactly when any present, nonzero market
average price puts the amount within 15 percent. -/
theorem verify_price_reasonable_iff (a : Rat) (map : Option Rat) :
    verify_price_reasonable a map = true ↔
      (∀ m, map = some m → m ≠ 0 → |(a - m) / m * 100| ≤ 15) := by
  cases map with
  | none => simp [verify_price_reasonable]
  | some m =>
    by_cases hm : m = 0
    · subst hm
      simp [verify_price_reasonable]
    · simp [verify_price_reasonable, hm, ratAbs_eq_abs]

/-- The saved row of `verify_transaction` is the input row with only the
status replaced, APPROVED or REJECTED matching the returned decision. -/
theorem verify_transaction_snd (agent : AgentInstance) (t : Transaction) :
    (verify_transaction agent t).2 =
      { t with status :=
          if (verify_transaction agent t).1.approved then TxStatus.APPROVED
          else TxStatus.REJECTED } := by
  simp only [verify_transaction]

/-- On rejection, the reason is the rendered list of failed check names. -/
theorem verify_transaction_reason_of_rejected (agent : AgentInstance) (t : Transaction)
    (h : (verify_transaction agent t).1.approved = false) :
    (verify_transaction agent t).1.reason =
      some ("Failed checks: " ++ pyListRepr (failedCheckNames (runChecks agent t))) := by
  simp only [verify_transaction, runChecks] at h ⊢
  simp [h]

/-- The verifier on a fully-present row never takes the exception path, and
the handler-wrapped function agrees with the normal-path function. -/
theorem verify_transaction_raw_toRaw (agent : AgentInstance) (t : Transaction) :
    verify_transaction_raw agent t.toRaw =
      ((verify_transaction agent t).1, (verify_transaction agent t).2.toRaw) := by
  rfl

/-! ## Claim theorems -/

/-- C1: ShoppingService.verify_transaction approves a transaction exactly
when the amount is within the agent budget, the merchant is a member of
the allowlist by exact string match, and any present nonzero market
average price puts the amount within 15 percent (an absent market average
passes unconditionally); on rejection the returned reason renders the list
of every failed check name. -/
theorem C1_verify_transaction_approved_iff_and_reasons
    (agent : AgentInstance) (t : Transaction) :
    ((verify_transaction agent t).1.approved = true ↔
      (t.amount ≤ agent.max_budget ∧ t.merchant ∈ agent.allowed_merchants ∧
        (∀ m, t.market_average_price = some m → m ≠ 0 → |(t.amount - m) / m * 100| ≤ 15)))
    ∧ ((verify_transaction agent t).1.approved = false →
        (verify_transaction agent t).1.reason =
          some ("Failed checks: " ++ pyListRepr (failedCheckNames (runChecks agent t)))
        ∧ (¬ t.amount ≤ agent.max_budget →
            "budget_check" ∈ failedCheckNames (runChecks agent t))
        ∧ (t.merchant ∉ agent.allowed_merchants →
            "merchant_check" ∈ failedCheckNames (runChecks agent t))
        ∧ (¬ (∀ m, t.market_average_price = some m → m ≠ 0 →
              |(t.amount - m) / m * 100| ≤ 15) →
            "price_check" ∈ failedCheckNames (runChecks agent t))) := by
  constructor
  · rw [← verify_price_reasonable_iff t.amount t.market_average_price]
    simp only [verify_transaction, Bool.and_eq_true, decide_eq_true_eq]
    tauto
  · intro happ
    refine ⟨verify_transaction_reason_of_rejected agent t happ, ?_, ?_, ?_⟩
    · intro hb
      simp [runChecks, failedCheckNames, hb]
    · intro hm
      simp [runChecks, failedCheckNames, hm]
    · intro hp
      have hfalse : verify_price_reasonable t.amount t.market_average_price = false := by
        cases hv : verify_price_reasonable t.amount t.market_average_price with
        | false => rfl
        | true => exact absurd ((verify_price_reasonable_iff _ _).mp hv) hp
      simp [runChecks, failedCheckNames, hfalse]

/-- C1 witness: the scenario-B row at the merchant Walmart is rejected and
the merchant check is among the named failed checks. -/
theorem C1_witness :
    (verify_transaction agentA tW).1.approved = false ∧
    "merchant_check" ∈ failedCheckNames (runChecks agentA tW) := by
  have h := C1_verify_transaction_approved_iff_and_reasons agentA tW
  have happ : (verify_transaction agentA tW).1.approved = false := by decide
  exact ⟨happ, ((h.2 happ).2.2.1) (by decide)⟩

/-- C2: TrustScoreService.update_score clamps `score + delta` into [0,100]
with the fixed delta table (+5, -10, +2, -15), leaves the score unchanged
on an unknown event kind, and any sequence of events applied to a score in
[0,100] stays in [0,100]. -/
theorem C2_update_score_clamp_table_bounds :
    (∀ s : Int, update_score s "SUCCESSFUL_TRANSACTION" = max 0 (min 100 (s + 5))) ∧
    (∀ s : Int, update_score s "FAILED_TRANSACTION" = max 0 (min 100 (s + (-10)))) ∧
    (∀ s : Int, update_score s "PRICE_SAVING" = max 0 (min 100 (s + 2))) ∧
    (∀ s : Int, update_score s "SUSPICIOUS_ACTIVITY" = max 0 (min 100 (s + (-15)))) ∧
    (∀ (s : Int) (e : String), score_impacts e = none → update_score s e = s) ∧
    (∀ (s : Int) (events : List String), 0 ≤ s → s ≤ 100 →
      0 ≤ applyEvents s events ∧ applyEvents s events ≤ 100) := by
  refine ⟨fun s => rfl, fun s => rfl, fun s => rfl, fun s => rfl, ?_, ?_⟩
  · intro s e he
    simp [update_score, he]
  · intro s events h0 h100
    induction events generalizing s with
    | nil => exact ⟨h0, h100⟩
    | cons e rest ih =>
      refine ih (update_score s e) ?_ ?_
      · unfold update_score
        cases score_impacts e with
        | none => exact h0
        | some impact => exact le_max_left 0 _
      · unfold update_score
        cases score_impacts e with
        | none => exact h100
        | some impact => exact max_le (by norm_num) (min_le_left _ _)

/-- C2 witness: clamping at both ends, a no-op unknown event, and a
concrete event sequence staying inside the bounds. -/
theorem C2_witness :
    update_score 98 "SUCCESSFUL_TRANSACTION" = 100 ∧
    update_score 5 "FAILED_TRANSACTION" = 0 ∧
    update_score 50 "UNKNOWN_EVENT" = 50 ∧
    0 ≤ applyEvents 50 ["SUCCESSFUL_TRANSACTION", "UNKNOWN_EVENT", "SUSPICIOUS_ACTIVITY"] ∧
    applyEvents 50 ["SUCCESSFUL_TRANSACTION", "UNKNOWN_EVENT", "SUSPICIOUS_ACTIVITY"] ≤ 100 := by
  have h := C2_update_score_clamp_table_bounds
  have hseq := h.2.2.2.2.2 50 ["SUCCESSFUL_TRANSACTION", "UNKNOWN_EVENT", "SUSPICIOUS_ACTIVITY"]
    (by decide) (by decide)
  exact ⟨(h.1 98).trans (by decide), (h.2.1 5).trans (by decide),
    h.2.2.2.2.1 50 "UNKNOWN_EVENT" (by decide), hseq.1, hseq.2⟩

/-- C3 counterexample: on an approved request the endpoint answers 200 and
stores the row as EXECUTED, yet `executed_at` is still null — the view
never assigns it, so it is not set to the current time as claimed. -/
theorem C3_counterexample_executed_at_never_set :
    (TransactionVerificationView_post (fun _ _ _ => 0) 1 agentA bodyA).response.statusCode = 200 ∧
    ((TransactionVerificationView_post (fun _ _ _ => 0) 1 agentA bodyA).transactionRow.map
      Transaction.status) = some TxStatus.EXECUTED ∧
    ((TransactionVerificationView_post (fun _ _ _ => 0) 1 agentA bodyA).transactionRow.map
      Transaction.executed_at) = some none := by
  refine ⟨rfl, rfl, rfl⟩

/-- C3 (amended): for every transaction the verifier approves, the view
calls executeTransfer once with the agent wallet, the merchant wallet and
the amount, stores the row as EXECUTED carrying the returned hash, leaves
`executed_at` untouched (null for rows created by this endpoint), applies
the SUCCESSFUL_TRANSACTION trust event to the agent, and answers 200 with
status EXECUTED and the hash. -/
theorem C3_amended_approved_path (pyhash : String → String → Rat → Int)
    (agent : AgentInstance) (t0 : Transaction)
    (happ : (verify_transaction agent t0).1.approved = true) :
    (post_afterSave pyhash agent t0).walletCalls =
      [(agent.bridge_wallet_address, t0.merchant_wallet, t0.amount)] ∧
    ((post_afterSave pyhash agent t0).transactionRow.map Transaction.status) =
      some TxStatus.EXECUTED ∧
    ((post_afterSave pyhash agent t0).transactionRow.map Transaction.transaction_hash) =
      some (execute_transfer pyhash agent.bridge_wallet_address t0.merchant_wallet t0.amount) ∧
    ((post_afterSave pyhash agent t0).transactionRow.map Transaction.executed_at) =
      some t0.executed_at ∧
    (post_afterSave pyhash agent t0).agent.trust_score =
      update_score agent.trust_score "SUCCESSFUL_TRANSACTION" ∧
    (post_afterSave pyhash agent t0).response =
      { statusCode := 200
        body := ResponseBody.executed
          (execute_transfer pyhash agent.bridge_wallet_address t0.merchant_wallet t0.amount) } := by
  rw [post_afterSave, verify_transaction_snd agent t0]
  simp [happ]

/-- C3 witness: the approved path evaluated on a concrete approved row. -/
theorem C3_witness :
    (post_afterSave (fun _ _ _ => 0) agentA tOk).walletCalls =
      [(agentA.bridge_wallet_address, tOk.merchant_wallet, tOk.amount)] ∧
    ((post_afterSave (fun _ _ _ => 0) agentA tOk).transactionRow.map Transaction.status) =
      some TxStatus.EXECUTED ∧
    (post_afterSave (fun _ _ _ => 0) agentA tOk).agent.trust_score =
      update_score agentA.trust_score "SUCCESSFUL_TRANSACTION" := by
  have h := C3_amended_approved_path (fun _ _ _ => 0) agentA tOk (by decide)
  exact ⟨h.1, h.2.1, h.2.2.2.2.1⟩

/-- C4: scenario A through POST /transactions/verify — agent with budget
1000.00, allowlist [Amazon, BestBuy], trust score 50; body amount 150.00 at
Amazon with market_average_price 180.00 — ends with a 200 EXECUTED response
carrying the transfer hash and the agent trust score at 55, for every
process hash seed.  (The body field market_average_price is read-only in
TransactionSerializer, so the created row stores null there and the price
check passes on no data.) -/
theorem C4_scenarioA_executed_trust_55 (pyhash : String → String → Rat → Int) :
    (TransactionVerificationView_post pyhash 1 agentA bodyA).response.statusCode = 200 ∧
    (TransactionVerificationView_post pyhash 1 agentA bodyA).response.body =
      ResponseBody.executed
        (execute_transfer pyhash agentA.bridge_wallet_address bodyA.merchant_wallet bodyA.amount) ∧
    ((TransactionVerificationView_post pyhash 1 agentA bodyA).transactionRow.map
      Transaction.status) = some TxStatus.EXECUTED ∧
    (TransactionVerificationView_post pyhash 1 agentA bodyA).agent.trust_score = 55 := by
  refine ⟨rfl, rfl, rfl, rfl⟩

/-- C4 witness: the scenario evaluated at one concrete process hash
function. -/
theorem C4_witness :
    (TransactionVerificationView_post (fun _ _ _ => 7) 1 agentA bodyA).response.statusCode = 200 ∧
    (TransactionVerificationView_post (fun _ _ _ => 7) 1 agentA bodyA).agent.trust_score = 55 := by
  have h := C4_scenarioA_executed_trust_55 (fun _ _ _ => 7)
  exact ⟨h.1, h.2.2.2⟩

/-- C5: for every transaction the verifier rejects, the view stores the row
as REJECTED (the persisted statuses end REJECTED, REJECTED), answers 400
REJECTED with the rendered failed-check names as the reason, makes no
wallet call, and leaves the agent row — its trust score included —
unchanged. -/
theorem C5_rejected_path_frame (pyhash : String → String → Rat → Int)
    (agent : AgentInstance) (t0 : Transaction)
    (hrej : (verify_transaction agent t0).1.approved = false) :
    (post_afterSave pyhash agent t0).walletCalls = [] ∧
    ((post_afterSave pyhash agent t0).transactionRow.map Transaction.status) =
      some TxStatus.REJECTED ∧
    (post_afterSave pyhash agent t0).statusHistory =
      [t0.status, TxStatus.REJECTED, TxStatus.REJECTED] ∧
    (post_afterSave pyhash agent t0).agent = agent ∧
    (post_afterSave pyhash agent t0).response =
      { statusCode := 400
        body := ResponseBody.rejected
          (some ("Failed checks: " ++ pyListRepr (failedCheckNames (runChecks agent t0)))) } := by
  rw [post_afterSave, verify_transaction_snd agent t0,
    verify_transaction_reason_of_rejected agent t0 hrej]
  simp [hrej]

/-- C5 witness: the rejected path evaluated on the scenario-B row. -/
theorem C5_witness :
    (post_afterSave (fun _ _ _ => 0) agentA tW).walletCalls = [] ∧
    (post_afterSave (fun _ _ _ => 0) agentA tW).agent = agentA ∧
    (post_afterSave (fun _ _ _ => 0) agentA tW).response.statusCode = 400 := by
  have h := C5_rejected_path_frame (fun _ _ _ => 0) agentA tW (by decide)
  exact ⟨h.1, h.2.2.2.1, by rw [h.2.2.2.2]⟩

/-- C6: a requester (user id 99) who does not own agentA (owned by user id
1) sends a valid body; the ownership ValidationError is caught by the
generic `except Exception` handler, so the endpoint answers 500 — not the
claimed 400 — while, as claimed, no transaction row is created, no wallet
call is made, and the agent row is unchanged.  The repository test
test_transaction_verification_unauthorized_agent asserts 400 here, so the
claim matches the intended behaviour and the code contradicts its own
test. -/
theorem C6_unauthorized_answers_500_without_mutation :
    (TransactionVerificationView_post (fun _ _ _ => 0) 99 agentA bodyA).response =
      { statusCode := 500
        body := ResponseBody.error "Verification failed" "Not authorized for this agent" } ∧
    (TransactionVerificationView_post (fun _ _ _ => 0) 99 agentA bodyA).transactionRow = none ∧
    (TransactionVerificationView_post (fun _ _ _ => 0) 99 agentA bodyA).walletCalls = [] ∧
    (TransactionVerificationView_post (fun _ _ _ => 0) 99 agentA bodyA).agent = agentA ∧
    (TransactionVerificationView_post (fun _ _ _ => 0) 99 agentA bodyA).response.statusCode ≠ 400 := by
  refine ⟨rfl, rfl, rfl, by decide, by decide⟩

/-- C7 counterexample: on a transaction missing its required amount, the
verification body raises (Except.error), but verify_transaction returns the
exception masked as a structured rejection — approved false with a
"Verification error" reason — instead of reporting the precondition
violation to the caller as an error. -/
theorem C7_counterexample_error_masked_as_rejection :
    (verify_transaction_body agentA tMissing).isOk = false ∧
    (verify_transaction_raw agentA tMissing).1.approved = false ∧
    (verify_transaction_raw agentA tMissing).1.reason =
      some "Verification error: unsupported comparison between NoneType and Decimal" ∧
    (verify_transaction_raw agentA tMissing).2 = tMissing := by
  refine ⟨rfl, rfl, rfl, rfl⟩

/-- C7 (amended): the verifier raises no error on well-formed inputs and
recovers domain violations into a structured rejection, but a malformed
transaction (missing amount) raises inside the `try:` body and the blanket
`except Exception` handler masks it as a rejection value whose reason is
prefixed "Verification error:", leaving the row unwritten. -/
theorem C7_amended_exception_masking :
    (∀ (agent : AgentInstance) (t : RawTransaction), t.amount = none →
      (verify_transaction_body agent t).isOk = false ∧
      verify_transaction_raw agent t =
        ({ approved := false
           reason := some "Verification error: unsupported comparison between NoneType and Decimal" },
         t)) ∧
    (∀ (agent : AgentInstance) (t : Transaction),
      (verify_transaction_body agent t.toRaw).isOk = true ∧
      (verify_transaction_raw agent t.toRaw).1 = (verify_transaction agent t).1) := by
  constructor
  · intro agent t h
    constructor
    · simp [verify_transaction_body, h, Except.isOk, Except.toBool]
    · simp [verify_transaction_raw, verify_transaction_body, h]
  · intro agent t
    constructor
    · rfl
    · rw [verify_transaction_raw_toRaw]

/-- C7 witness: the masking branch at a concrete malformed transaction and
the error-free branch at a concrete well-formed one. -/
theorem C7_witness :
    (verify_transaction_body agentA tMissing).isOk = false ∧
    (verify_transaction_raw agentA tMissing).1.approved = false ∧
    (verify_transaction_body agentA tW.toRaw).isOk = true ∧
    (verify_transaction_raw agentA tW.toRaw).1 = (verify_transaction agentA tW).1 := by
  have h := C7_amended_exception_masking
  have h1 := h.1 agentA tMissing rfl
  have h2 := h.2 agentA tW
  exact ⟨h1.1, by rw [h1.2], h2.1, h2.2⟩

/-- The persisted statuses of the code after row creation: the created
status, then APPROVED or REJECTED from the verifier save, then EXECUTED or
again REJECTED from the final save. -/
theorem post_afterSave_statusHistory (pyhash : String → String → Rat → Int)
    (agent : AgentInstance) (t0 : Transaction) :
    (post_afterSave pyhash agent t0).statusHistory =
      [t0.status,
       if (verify_transaction agent t0).1.approved then TxStatus.APPROVED else TxStatus.REJECTED,
       if (verify_transaction agent t0).1.approved then TxStatus.EXECUTED else TxStatus.REJECTED] := by
  rw [post_afterSave, verify_transaction_snd agent t0]
  by_cases h : (verify_transaction agent t0).1.approved
  · simp [h]
  · simp [h]

/-- C9 counterexample: the endpoint persists the scenario-A transaction
first as VERIFYING — no PENDING status is ever persisted, so the claimed
initial persisted PENDING state does not exist. -/
theorem C9_counterexample_no_persisted_pending :
    (TransactionVerificationView_post (fun _ _ _ => 0) 1 agentA bodyA).statusHistory =
      [TxStatus.VERIFYING, TxStatus.APPROVED, TxStatus.EXECUTED] ∧
    TxStatus.PENDING ∉ (TransactionVerificationView_post (fun _ _ _ => 0) 1 agentA bodyA).statusHistory ∧
    (TransactionVerificationView_post (fun _ _ _ => 0) 1 agentA bodyA).statusHistory.head? ≠
      some TxStatus.PENDING := by
  refine ⟨rfl, by decide, by decide⟩

/-- C9 (amended): the transaction is created and persisted directly in
VERIFYING (`serializer.save(status=VERIFYING)` overrides the model default
PENDING before the first save); thereafter every run persists statuses that
only advance along PENDING, VERIFYING, APPROVED/REJECTED, EXECUTED and
never regress. -/
theorem C9_amended_statuses_advance_from_verifying
    (pyhash : String → String → Rat → Int) (requestUserId : Nat)
    (agent : AgentInstance) (body : VerifyRequestBody) :
    statusesAdvance
      (TransactionVerificationView_post pyhash requestUserId agent body).statusHistory = true ∧
    ((TransactionVerificationView_post pyhash requestUserId agent body).statusHistory = [] ∨
     (TransactionVerificationView_post pyhash requestUserId agent body).statusHistory.head? =
       some TxStatus.VERIFYING) := by
  rw [TransactionVerificationView_post]
  cases hval : TransactionSerializer_validate agent body with
  | error msg => exact ⟨rfl, Or.inl rfl⟩
  | ok u =>
    by_cases huid : agent.userId = requestUserId
    · rw [if_pos huid, post_afterSave_statusHistory]
      by_cases happ : (verify_transaction agent
          { amount := body.amount
            merchant := body.merchant
            merchant_wallet := body.merchant_wallet
            status := TxStatus.VERIFYING
            market_average_price := none
            transaction_hash := ""
            executed_at := none }).1.approved
      · rw [if_pos happ, if_pos happ]
        exact ⟨rfl, Or.inr rfl⟩
      · rw [if_neg happ, if_neg happ]
        exact ⟨rfl, Or.inr rfl⟩
    · rw [if_neg huid]
      exact ⟨rfl, Or.inl rfl⟩

/-- C9 witness: the status sequence of a concrete run advances and starts
at VERIFYING. -/
theorem C9_witness :
    statusesAdvance
      (TransactionVerificationView_post (fun _ _ _ => 3) 1 agentA bodyA).statusHistory = true ∧
    ((TransactionVerificationView_post (fun _ _ _ => 3) 1 agentA bodyA).statusHistory = [] ∨
     (TransactionVerificationView_post (fun _ _ _ => 3) 1 agentA bodyA).statusHistory.head? =
       some TxStatus.VERIFYING) :=
  C9_amended_statuses_advance_from_verifying (fun _ _ _ => 3) 1 agentA bodyA

/-- C10: a body whose amount exceeds the budget or whose merchant is not
allowed is stopped by TransactionSerializer.validate: the raise happens
before any row is created (no persisted status, no verifier run) and the
generic handler answers it (500 error response); and no run of the endpoint
ever produces a REJECTED response body, so the verifier budget and merchant
checks cannot cause a REJECTED outcome through this endpoint. -/
theorem C10_serializer_preempts_verifier :
    (∀ (pyhash : String → String → Rat → Int) (requestUserId : Nat)
       (agent : AgentInstance) (body : VerifyRequestBody),
      (agent.max_budget < body.amount ∨ body.merchant ∉ agent.allowed_merchants) →
        (TransactionSerializer_validate agent body).isOk = false ∧
        (TransactionVerificationView_post pyhash requestUserId agent body).transactionRow = none ∧
        (TransactionVerificationView_post pyhash requestUserId agent body).statusHistory = [] ∧
        (TransactionVerificationView_post pyhash requestUserId agent body).walletCalls = [] ∧
        (TransactionVerificationView_post pyhash requestUserId agent body).response.statusCode = 500) ∧
    (∀ (pyhash : String → String → Rat → Int) (requestUserId : Nat)
       (agent : AgentInstance) (body : VerifyRequestBody),
      ((TransactionVerificationView_post pyhash requestUserId agent body).response.body).isRejected
        = false) := by
  constructor
  · intro pyhash requestUserId agent body hviol
    obtain ⟨msg, hv⟩ : ∃ msg, TransactionSerializer_validate agent body = Except.error msg := by
      unfold TransactionSerializer_validate
      rcases hviol with h | h
      · exact ⟨_, if_pos h⟩
      · by_cases hb : agent.max_budget < body.amount
        · exact ⟨_, if_pos hb⟩
        · rw [if_neg hb, if_neg h]
          exact ⟨_, rfl⟩
    rw [TransactionVerificationView_post, hv]
    exact ⟨rfl, rfl, rfl, rfl, rfl⟩
  · intro pyhash requestUserId agent body
    rw [TransactionVerificationView_post]
    cases hval : TransactionSerializer_validate agent body with
    | error msg => rfl
    | ok u =>
      by_cases huid : agent.userId = requestUserId
      · rw [if_pos huid]
        have hb : ¬ agent.max_budget < body.amount := by
          intro hb
          rw [TransactionSerializer_validate, if_pos hb] at hval
          exact Except.noConfusion hval
        have hm : body.merchant ∈ agent.allowed_merchants := by
          by_contra hm
          rw [TransactionSerializer_validate, if_neg hb, if_neg hm] at hval
          exact Except.noConfusion hval
        have happ : (verify_transaction agent
            { amount := body.amount
              merchant := body.merchant
              merchant_wallet := body.merchant_wallet
              status := TxStatus.VERIFYING
              market_average_price := none
              transaction_hash := ""
              executed_at := none }).1.approved = true := by
          simp [verify_transaction, verify_price_reasonable, not_lt.mp hb, hm]
        rw [post_afterSave]
        simp [happ, ResponseBody.isRejected]
      · rw [if_neg huid]
        rfl

/-- C10 witness: a body exceeding the budget is answered 500 with no row
created and no verifier run. -/
theorem C10_witness :
    (TransactionSerializer_validate agentA
      { amount := 2000
        merchant := "Amazon"
        merchant_wallet := "0xm"
        market_average_price := none }).isOk = false ∧
    (TransactionVerificationView_post (fun _ _ _ => 0) 1 agentA
      { amount := 2000
        merchant := "Amazon"
        merchant_wallet := "0xm"
        market_average_price := none }).transactionRow = none ∧
    (TransactionVerificationView_post (fun _ _ _ => 0) 1 agentA
      { amount := 2000
        merchant := "Amazon"
        merchant_wallet := "0xm"
        market_average_price := none }).response.statusCode = 500 := by
  have h := C10_serializer_preempts_verifier.1 (fun _ _ _ => 0) 1 agentA
    { amount := 2000
      merchant := "Amazon"
      merchant_wallet := "0xm"
      market_average_price := none } (Or.inl (by decide))
  exact ⟨h.1, h.2.1, h.2.2.2.2⟩

/-- Every character the digit table produces is a lowercase hex digit. -/
theorem hexDigitChar_isHex (d : Nat) : isHexDigitChar (hexDigitChar d) = true := by
  unfold hexDigitChar
  split <;> decide

/-- The fuelled digit extraction stays within `k` digits for `n < 16^k`. -/
theorem natHexDigitsAux_length (fuel : Nat) :
    ∀ (k n : Nat), 0 < k → n < 16 ^ k → (natHexDigitsAux fuel n).length ≤ k := by
  induction fuel with
  | zero =>
    intro k n _ _
    simp [natHexDigitsAux]
  | succ fuel ih =>
    intro k n hk hn
    unfold natHexDigitsAux
    split
    · simpa using hk
    · rename_i h16
      have hk2 : 2 ≤ k := by
        rcases Nat.lt_or_ge k 2 with h | h
        · exfalso
          have hk1 : k = 1 := by omega
          subst hk1
          rw [pow_one] at hn
          omega
        · exact h
      have hpow : 16 ^ (k - 1) * 16 = 16 ^ k := by
        rw [← pow_succ]
        congr 1
        omega
      have hdiv : n / 16 < 16 ^ (k - 1) := by
        rw [Nat.div_lt_iff_lt_mul (by norm_num : 0 < 16), hpow]
        exact hn
      have := ih (k - 1) (n / 16) (by omega) hdiv
      simp only [List.length_cons]
      omega

/-- Every character the fuelled digit extraction produces is a hex digit. -/
theorem natHexDigitsAux_hex (fuel : Nat) :
    ∀ n, (natHexDigitsAux fuel n).all isHexDigitChar = true := by
  induction fuel with
  | zero => intro n; rfl
  | succ fuel ih =>
    intro n
    unfold natHexDigitsAux
    split
    · simp [hexDigitChar_isHex]
    · simp [hexDigitChar_isHex, ih]

/-- Digit-count bound for the minimal hex rendering. -/
theorem natToHex_length (k n : Nat) (hk : 0 < k) (hn : n < 16 ^ k) :
    (natToHex n).length ≤ k := by
  rw [natToHex, List.length_reverse]
  exact natHexDigitsAux_length (n + 1) k n hk hn

/-- The minimal hex rendering consists of hex digits. -/
theorem natToHex_hex (n : Nat) : (natToHex n).all isHexDigitChar = true := by
  rw [natToHex, List.all_reverse]
  exact natHexDigitsAux_hex (n + 1) n

/-- Zero-padding reaches exactly the target width once the digits fit. -/
theorem leftPadZeros_length (w : Nat) (s : List Char) (h : s.length ≤ w) :
    (leftPadZeros w s).length = w := by
  simp [leftPadZeros]
  omega

/-- Zero-padding preserves being all hex digits. -/
theorem leftPadZeros_hex (w : Nat) (s : List Char) (h : s.all isHexDigitChar = true) :
    (leftPadZeros w s).all isHexDigitChar = true := by
  simp only [leftPadZeros, List.all_append, h, Bool.and_true]
  rw [List.all_eq_true]
  intro c hc
  rw [List.eq_of_mem_replicate hc]
  decide

/-- Splitting facts about a rendered `0x`-prefixed digit string. -/
theorem data_0x_spec (l : List Char) (w : Nat) (hlen : l.length = w)
    (hhex : l.all isHexDigitChar = true) :
    ('0' :: 'x' :: l).take 2 = ['0', 'x'] ∧ ('0' :: 'x' :: l).length = w + 2 ∧
    (('0' :: 'x' :: l).drop 2).length = w ∧
    (('0' :: 'x' :: l).drop 2).all isHexDigitChar = true := by
  refine ⟨rfl, by simp [hlen], by simpa using hlen, by simpa using hhex⟩

/-- Python `f"{n:0{w}x}"` on a nonnegative int below `16^w` is exactly `w`
lowercase hex digits. -/
theorem pyHexFmt_nonneg (w : Nat) (n : Int) (hw : 0 < w) (h0 : 0 ≤ n)
    (hn : n < (16 : Int) ^ w) :
    (pyHexFmt w n).length = w ∧ (pyHexFmt w n).all isHexDigitChar = true := by
  have hnat : n.toNat < 16 ^ w := by
    have hcast : ((16 ^ w : Nat) : Int) = (16 : Int) ^ w := by push_cast; ring
    have h2 : n < ((16 ^ w : Nat) : Int) := by rw [hcast]; exact hn
    omega
  rw [pyHexFmt, if_neg (not_lt.mpr h0)]
  exact ⟨leftPadZeros_length w _ (natToHex_length w n.toNat hw hnat),
    leftPadZeros_hex w _ (natToHex_hex n.toNat)⟩

/-- C8 counterexample: `-5` is a value Python `hash` can return (it lies in
the signed 64-bit range), and with it the transfer hash renders as `0x`
followed by a minus sign and 63 digits — 64 characters that are not all hex
digits — so execute_transfer does not always return `0x` + 64 hex digits. -/
theorem C8_counterexample_negative_hash_breaks_format :
    (-(2 : Int) ^ 63 ≤ -5 ∧ (-5 : Int) < 2 ^ 63) ∧
    ((execute_transfer (fun _ _ _ => (-5 : Int)) "0xaaaa" "0xbbbb" 100).data.drop 2).length = 64 ∧
    ((execute_transfer (fun _ _ _ => (-5 : Int)) "0xaaaa" "0xbbbb" 100).data.drop 2).all
      isHexDigitChar = false := by
  refine ⟨⟨by norm_num, by norm_num⟩, rfl, rfl⟩

/-- C8 (amended): create_wallet is `0x` plus exactly 40 zero-padded hex
digits for every user id below `16^40` (all real ids — Django primary keys
fit in 63 bits), identically on every call; execute_transfer is, for a
fixed process hash seed, a pure function of its three inputs, and renders
`0x` plus exactly 64 hex digits whenever the process hash value of the
concatenated inputs is nonnegative (a negative hash value inserts a minus
sign instead, see the counterexample). -/
theorem C8_amended_wallet_formats (pyhash : String → String → Rat → Int)
    (userId : Nat) (hid : userId < 16 ^ 40)
    (fw tw : String) (amt : Rat)
    (hpos : 0 ≤ pyhash fw tw amt) (hlt : pyhash fw tw amt < 2 ^ 63) :
    ((create_wallet userId).data.take 2 = ['0', 'x'] ∧
     (create_wallet userId).data.length = 42 ∧
     ((create_wallet userId).data.drop 2).length = 40 ∧
     ((create_wallet userId).data.drop 2).all isHexDigitChar = true) ∧
    ((execute_transfer pyhash fw tw amt).data.take 2 = ['0', 'x'] ∧
     (execute_transfer pyhash fw tw amt).data.length = 66 ∧
     ((execute_transfer pyhash fw tw amt).data.drop 2).length = 64 ∧
     ((execute_transfer pyhash fw tw amt).data.drop 2).all isHexDigitChar = true) := by
  have hw : (pyHexFmt 40 (Int.ofNat userId)).length = 40 ∧
      (pyHexFmt 40 (Int.ofNat userId)).all isHexDigitChar = true := by
    refine pyHexFmt_nonneg 40 _ (by norm_num) (Int.ofNat_nonneg userId) ?_
    have : (userId : Int) < ((16 ^ 40 : Nat) : Int) := by
      exact_mod_cast hid
    simpa using this
  have ht : (pyHexFmt 64 (pyhash fw tw amt)).length = 64 ∧
      (pyHexFmt 64 (pyhash fw tw amt)).all isHexDigitChar = true := by
    refine pyHexFmt_nonneg 64 _ (by norm_num) hpos (lt_trans hlt (by norm_num))
  have h40 := data_0x_spec (pyHexFmt 40 (Int.ofNat userId)) 40 hw.1 hw.2
  have h64 := data_0x_spec (pyHexFmt 64 (pyhash fw tw amt)) 64 ht.1 ht.2
  exact ⟨⟨h40.1, h40.2.1, h40.2.2.1, h40.2.2.2⟩, ⟨h64.1, h64.2.1, h64.2.2.1, h64.2.2.2⟩⟩

/-- C8 witness: the formats at user id 3 and a process whose hash value of
the concatenated inputs is 5. -/
theorem C8_witness :
    (create_wallet 3).data.length = 42 ∧
    ((create_wallet 3).data.drop 2).all isHexDigitChar = true ∧
    (execute_transfer (fun _ _ _ => 5) "0xaaaa" "0xbbbb" 100).data.length = 66 ∧
    ((execute_transfer (fun _ _ _ => 5) "0xaaaa" "0xbbbb" 100).data.drop 2).all
      isHexDigitChar = true := by
  have h := C8_amended_wallet_formats (fun _ _ _ => 5) 3 (by norm_num)
    "0xaaaa" "0xbbbb" 100 (by norm_num) (by norm_num)
  exact ⟨h.1.2.1, h.1.2.2.2, h.2.2.1, h.2.2.2.2⟩

end Trusty
